import Mathlib

/-!
Verification of the Oyster-card transit model in `src/index.ts`.

Shallow embedding conventions:
* Monetary amounts are exact integers in pence (the source's decimal pounds
  scaled by 100: `1.80` becomes `180`, `3.20` becomes `320`, and so on), so
  every balance computation of the source is mirrored exactly.
* The mutable `OysterCard` object becomes explicit state passing over
  `CardState`; a thrown JS exception becomes the `TapResult.err` constructor,
  which carries the state at the moment of the throw (the source never mutates
  before throwing inside an operation, and the theorems below verify that the
  carried state equals the input state).
* `stations.find(...)` becomes `List.find?`, `Math.min(...)` over a non-empty
  array becomes a left fold of `min` (the empty case, where JS would produce
  `Infinity`, is given the junk value 0 and excluded by non-emptiness
  hypotheses; every station in the directory has a non-empty zone list).
-/

/-- `interface Station { name: string; zones: number[] }`. -/
structure Station where
  name : String
  zones : List Nat
deriving DecidableEq, Repr

/-- `enum TransportType { BUS = 'bus', TUBE = 'tube' }`. -/
inductive TransportType where
  | bus
  | tube
deriving DecidableEq, Repr

/-- `interface Journey { from: string; to?: string; type: 'bus' | 'tube' }`.
The optional `to` field is never assigned by the source and stays `none`. -/
structure Journey where
  «from» : String
  «to» : Option String := none
  type : TransportType
deriving DecidableEq, Repr

/-- The station directory (`const stations: Station[]`). -/
def stations : List Station :=
  [ { name := "Holburn", zones := [1] },
    { name := "Chelsea", zones := [1] },
    { name := "Earl's Court", zones := [1, 2] },
    { name := "Wimbledon", zones := [3] },
    { name := "Hammersmith", zones := [2] },
    { name := "Southfields", zones := [3] },
    { name := "Any Station", zones := [1] },
    { name := "Another Station", zones := [1] },
    { name := "Final Station", zones := [1] } ]

/-- The tube fare tiers of `const fares` (pence). -/
structure TubeFares where
  zone1Only : Int
  oneZoneOutsideZone1 : Int
  twoZonesIncludingZone1 : Int
  twoZonesExcludingZone1 : Int
  threeZones : Int
deriving DecidableEq, Repr

/-- `const fares = { bus, max, tube }` (pence). -/
structure FareTable where
  bus : Int
  max : Int
  tube : TubeFares
deriving DecidableEq, Repr

/-- The configured fare table: bus 1.80, max-auth 3.20 and the five tiers. -/
def fares : FareTable :=
  { bus := 180
    max := 320
    tube :=
      { zone1Only := 250
        oneZoneOutsideZone1 := 200
        twoZonesIncludingZone1 := 300
        twoZonesExcludingZone1 := 225
        threeZones := 320 } }

/-- The error kinds the operations can raise (the source throws `Error` with a
message; the kinds below name the four distinct throw sites, plus
`internalFault` for the runtime fault of `calculateTubeFare(departureStation!,
...)` when the recorded origin is absent from the directory, which the
non-null assertion leaves unchecked). -/
inductive OysterError where
  | unknownStation (name : String)
  | insufficientBalance
  | invalidTapOut
  | internalFault
deriving DecidableEq, Repr

/-- The mutable fields of `class OysterCard`. -/
structure CardState where
  balance : Int
  currentJourney : Option Journey
deriving DecidableEq, Repr

/-- Outcome of an operation: normal return with the new state, or a thrown
exception together with the state at the throw. -/
inductive TapResult where
  | ok (c : CardState)
  | err (e : OysterError) (c : CardState)
deriving DecidableEq, Repr

/-- `constructor(initialBalance)`. -/
def mkCard (initialBalance : Int) : CardState :=
  { balance := initialBalance, currentJourney := none }

/-- `stations.find(s => s.name === stationName)`. -/
def findStation (stationName : String) : Option Station :=
  stations.find? (fun s => s.name == stationName)

/-- `load(amount) { this.balance += amount }`. -/
def load (c : CardState) (amount : Int) : CardState :=
  { c with balance := c.balance + amount }

/-- `deductFare(amount)`: throws `Insufficient balance.` when
`this.balance < amount`, otherwise `this.balance -= amount`. -/
def deductFare (c : CardState) (amount : Int) : TapResult :=
  if c.balance < amount then .err .insufficientBalance c
  else .ok { c with balance := c.balance - amount }

/-- `adjustFare(refund) { this.balance += refund }`. -/
def adjustFare (c : CardState) (refund : Int) : CardState :=
  { c with balance := c.balance + refund }

/-- The body of the nested zone loops of `calculateTubeFare`: fare for one
`(fromZone, toZone)` pair. `journeySize = Math.abs(fromZone - toZone) + 1` is
`max - min + 1` on naturals; `journeyZones.has(1)` is
`fromZone == 1 || toZone == 1`. -/
def fareForPair (fromZone toZone : Nat) : Int :=
  let journeySize := max fromZone toZone - min fromZone toZone + 1
  let isZone1Involved := fromZone == 1 || toZone == 1
  if journeySize == 1 then
    if isZone1Involved then fares.tube.zone1Only else fares.tube.oneZoneOutsideZone1
  else if journeySize == 2 then
    if isZone1Involved then fares.tube.twoZonesIncludingZone1 else fares.tube.twoZonesExcludingZone1
  else fares.tube.threeZones

/-- `possibleFares`: the array built by the nested `for` loops, one entry per
pair of the Cartesian product of the two zone lists, in loop order. -/
def possibleFares (fromZones toZones : List Nat) : List Int :=
  fromZones.flatMap fun fromZone => toZones.map fun toZone => fareForPair fromZone toZone

/-- `Math.min(...)` over an array: `0` is a junk value for the empty array
(JS yields `Infinity` there; every theorem below assumes non-empty zones). -/
def listMin : List Int → Int
  | [] => 0
  | x :: xs => xs.foldl min x

/-- `calculateTubeFare(from, to)`: the lowest fare across all zone pairs. -/
def calculateTubeFare (origin destination : Station) : Int :=
  listMin (possibleFares origin.zones destination.zones)

/-- `tapIn(stationName, type)`. -/
def tapIn (c : CardState) (stationName : String) (type : TransportType) : TapResult :=
  match findStation stationName with
  | none => .err (.unknownStation stationName) c
  | some _station =>
    match type with
    | .tube =>
      match deductFare c fares.max with
      | .ok c' =>
        .ok { c' with currentJourney := some { «from» := stationName, type := .tube } }
      | .err e c' => .err e c'
    | .bus => deductFare c fares.bus

/-- `tapOut(stationName)`. The source looks up the departure station before
checking the arrival, but only dereferences it (via the `!` assertion) after
the arrival check passed, so the observable order is: journey check, arrival
lookup, departure dereference. -/
def tapOut (c : CardState) (stationName : String) : TapResult :=
  match c.currentJourney with
  | none => .err .invalidTapOut c
  | some j =>
    if j.type == TransportType.tube then
      match findStation stationName with
      | none => .err (.unknownStation stationName) c
      | some arrivalStation =>
        match findStation j.«from» with
        | none => .err .internalFault c
        | some departureStation =>
          let fare := calculateTubeFare departureStation arrivalStation
          let c' := adjustFare c (fares.max - fare)
          .ok { c' with currentJourney := none }
    else .err .invalidTapOut c

/-- `getBalance()`. -/
def getBalance (c : CardState) : Int :=
  c.balance

/-- The tier fare exactly as the specification words it (refinement reference):
`span = |originZone - destinationZone| + 1`,
`involvesZone1 = (originZone == 1 or destinationZone == 1)`, then the five-tier
table of §3: span 1 with/without zone 1, span 2 with/without zone 1, span ≥ 3. -/
def specTierFare (originZone destinationZone : Nat) : Int :=
  let span := max originZone destinationZone - min originZone destinationZone + 1
  if span = 1 then
    if originZone = 1 ∨ destinationZone = 1 then fares.tube.zone1Only
    else fares.tube.oneZoneOutsideZone1
  else if span = 2 then
    if originZone = 1 ∨ destinationZone = 1 then fares.tube.twoZonesIncludingZone1
    else fares.tube.twoZonesExcludingZone1
  else fares.tube.threeZones

/-- Repeated bus taps: fold `tapIn · · bus` over a list of station names,
stopping at the first thrown error. -/
def runBusTaps (c : CardState) : List String → TapResult
  | [] => .ok c
  | nm :: nms =>
    match tapIn c nm TransportType.bus with
    | .ok c' => runBusTaps c' nms
    | .err e c' => .err e c'

/-- One requested operation on a card session. -/
inductive Op where
  | load (amount : Int)
  | tapIn (stationName : String) (t : TransportType)
  | tapOut (stationName : String)
deriving DecidableEq, Repr

/-- Execute one operation (`load` never throws). -/
def runOp (c : CardState) : Op → TapResult
  | .load a => .ok (load c a)
  | .tapIn nm t => tapIn c nm t
  | .tapOut nm => tapOut c nm

/-- The session state after an operation: the demo driver catches a thrown
error, and the session keeps the state carried at the throw. -/
def afterOp (c : CardState) (op : Op) : CardState :=
  match runOp c op with
  | .ok c' => c'
  | .err _ c' => c'

/-- The session state after a whole trace of operations. -/
def runTrace (c : CardState) : List Op → CardState
  | [] => c
  | op :: ops => runTrace (afterOp c op) ops

/-- How one executed operation updates the open-journey origin, as the
specification words it: a successful tube tap-in sets it to that station, a
successful tap-out clears it, and every other operation — load, bus tap-in,
or any failed operation — leaves it unchanged. -/
def specUpdate (cur : Option String) (op : Op) (r : TapResult) : Option String :=
  match r with
  | .err _ _ => cur
  | .ok _ =>
    match op with
    | .tapIn nm TransportType.tube => some nm
    | .tapOut _ => none
    | _ => cur

/-- The open-journey origin tracked along a trace by `specUpdate`: it is
`some x` exactly when the most recent successful tube tap-in (at `x`) has not
yet been closed by a later successful tap-out. -/
def specOpenOrigin (c : CardState) (cur : Option String) : List Op → Option String
  | [] => cur
  | op :: ops => specOpenOrigin (afterOp c op) (specUpdate cur op (runOp c op)) ops

/-! ### The minimum of a list of fares -/

lemma foldl_min_le_init (l : List Int) (a : Int) : l.foldl min a ≤ a := by
  induction l generalizing a with
  | nil => exact le_refl a
  | cons x xs ih => exact le_trans (ih (min a x)) (min_le_left a x)

lemma foldl_min_le_mem (l : List Int) : ∀ a x, x ∈ l → l.foldl min a ≤ x := by
  induction l with
  | nil => intro a x hx; cases hx
  | cons y ys ih =>
    intro a x hx
    rcases List.mem_cons.mp hx with h | h
    · subst h
      exact le_trans (foldl_min_le_init ys (min a x)) (min_le_right a x)
    · exact ih (min a y) x h

lemma foldl_min_mem (l : List Int) : ∀ a, l.foldl min a = a ∨ l.foldl min a ∈ l := by
  induction l with
  | nil => intro a; exact Or.inl rfl
  | cons y ys ih =>
    intro a
    rcases ih (min a y) with h | h
    · rcases min_choice a y with hm | hm
      · left
        simpa [hm] using h
      · right
        rw [List.foldl_cons, h, hm]
        exact List.mem_cons_self y ys
    · right
      rw [List.foldl_cons]
      exact List.mem_cons_of_mem y h

lemma listMin_le (l : List Int) (x : Int) (hx : x ∈ l) : listMin l ≤ x := by
  cases l with
  | nil => cases hx
  | cons y ys =>
    rcases List.mem_cons.mp hx with h | h
    · subst h; exact foldl_min_le_init ys x
    · exact foldl_min_le_mem ys y x h

lemma listMin_mem (l : List Int) (hl : l ≠ []) : listMin l ∈ l := by
  cases l with
  | nil => exact absurd rfl hl
  | cons y ys =>
    rcases foldl_min_mem ys y with h | h
    · rw [listMin, h]
      exact List.mem_cons_self y ys
    · rw [listMin]
      exact List.mem_cons_of_mem y h

/-! ### The fare resolver as a minimum over the Cartesian product -/

lemma mem_possibleFares_iff (fromZones toZones : List Nat) (x : Int) :
    x ∈ possibleFares fromZones toZones ↔
      ∃ fz ∈ fromZones, ∃ tz ∈ toZones, x = fareForPair fz tz := by
  simp only [possibleFares, List.mem_flatMap, List.mem_map]
  constructor
  · rintro ⟨fz, hfz, tz, htz, rfl⟩
    exact ⟨fz, hfz, tz, htz, rfl⟩
  · rintro ⟨fz, hfz, tz, htz, rfl⟩
    exact ⟨fz, hfz, tz, htz, rfl⟩

lemma possibleFares_ne_nil (fromZones toZones : List Nat)
    (hf : fromZones ≠ []) (ht : toZones ≠ []) :
    possibleFares fromZones toZones ≠ [] := by
  obtain ⟨fz, hfz⟩ := List.exists_mem_of_ne_nil fromZones hf
  obtain ⟨tz, htz⟩ := List.exists_mem_of_ne_nil toZones ht
  exact List.ne_nil_of_mem
    ((mem_possibleFares_iff fromZones toZones (fareForPair fz tz)).mpr ⟨fz, hfz, tz, htz, rfl⟩)

lemma calculateTubeFare_le (A B : Station) (fz tz : Nat)
    (hfz : fz ∈ A.zones) (htz : tz ∈ B.zones) :
    calculateTubeFare A B ≤ fareForPair fz tz :=
  listMin_le _ _ ((mem_possibleFares_iff _ _ _).mpr ⟨fz, hfz, tz, htz, rfl⟩)

lemma calculateTubeFare_attained (A B : Station) (hA : A.zones ≠ []) (hB : B.zones ≠ []) :
    ∃ fz ∈ A.zones, ∃ tz ∈ B.zones, calculateTubeFare A B = fareForPair fz tz :=
  (mem_possibleFares_iff _ _ _).mp (listMin_mem _ (possibleFares_ne_nil _ _ hA hB))

lemma fareForPair_eq_spec (a b : Nat) : fareForPair a b = specTierFare a b := by
  simp only [fareForPair, specTierFare]
  by_cases h1 : max a b - min a b = 0 <;>
    by_cases h2 : max a b - min a b = 1 <;>
      by_cases h3 : a = 1 ∨ b = 1 <;>
        simp [h1, h2, h3]

lemma fareForPair_comm (a b : Nat) : fareForPair a b = fareForPair b a := by
  simp only [fareForPair, Nat.max_comm a b, Nat.min_comm a b, Bool.or_comm]

lemma fareForPair_le_max (a b : Nat) : fareForPair a b ≤ fares.max := by
  simp only [fareForPair]
  split_ifs <;> decide

/-! ### Characterizations of the tap operations -/

lemma tapIn_tube_ok {c c₁ : CardState} {nm : String}
    (h : tapIn c nm TransportType.tube = .ok c₁) :
    (∃ s, findStation nm = some s) ∧ fares.max ≤ c.balance ∧
      c₁ = { balance := c.balance - fares.max,
             currentJourney := some { «from» := nm, type := .tube } } := by
  unfold tapIn at h
  cases hfs : findStation nm with
  | none => rw [hfs] at h; cases h
  | some s =>
    rw [hfs] at h
    unfold deductFare at h
    by_cases hb : c.balance < fares.max
    · rw [if_pos hb] at h; cases h
    · rw [if_neg hb] at h
      refine ⟨⟨s, rfl⟩, not_lt.mp hb, ?_⟩
      cases h
      rfl

lemma tapOut_ok {c c₂ : CardState} {nm : String}
    (h : tapOut c nm = .ok c₂) :
    ∃ j dep arr, c.currentJourney = some j ∧ j.type = TransportType.tube ∧
      findStation j.«from» = some dep ∧ findStation nm = some arr ∧
      c₂ = { balance := c.balance + (fares.max - calculateTubeFare dep arr),
             currentJourney := none } := by
  unfold tapOut at h
  split at h
  · cases h
  · rename_i j hj
    split at h
    · rename_i ht
      split at h
      · cases h
      · rename_i arr harr
        split at h
        · cases h
        · rename_i dep hdep
          cases h
          exact ⟨j, dep, arr, hj, by simpa using ht, hdep, harr, rfl⟩
    · cases h

lemma tapIn_bus_ok (c : CardState) (nm : String) (s : Station)
    (hs : findStation nm = some s) (hb : fares.bus ≤ c.balance) :
    tapIn c nm TransportType.bus
      = .ok { balance := c.balance - fares.bus, currentJourney := c.currentJourney } := by
  simp [tapIn, deductFare, hs, not_lt.mpr hb]

lemma deductFare_err_state {c c' : CardState} {amount : Int} {e : OysterError}
    (h : deductFare c amount = .err e c') : c' = c := by
  unfold deductFare at h
  split at h
  · cases h
    rfl
  · cases h

lemma tapIn_err_state {c c' : CardState} {nm : String} {t : TransportType} {e : OysterError}
    (h : tapIn c nm t = .err e c') : c' = c := by
  unfold tapIn at h
  split at h
  · cases h
    rfl
  · split at h
    · split at h
      · cases h
      · rename_i e1 c1 heq
        cases h
        exact deductFare_err_state heq
    · exact deductFare_err_state h

lemma tapOut_err_state {c c' : CardState} {nm : String} {e : OysterError}
    (h : tapOut c nm = .err e c') : c' = c := by
  unfold tapOut at h
  split at h
  · cases h
    rfl
  · split at h
    · split at h
      · cases h
        rfl
      · split at h
        · cases h
          rfl
        · cases h
    · cases h
      rfl

lemma tapIn_bus_journey {c c' : CardState} {nm : String}
    (h : tapIn c nm TransportType.bus = .ok c') :
    c'.currentJourney = c.currentJourney := by
  simp only [tapIn, deductFare] at h
  split at h
  · cases h
  · split at h
    · cases h
    · cases h
      rfl

/-! ### The open-journey invariant along traces -/

lemma specOpenOrigin_invariant (ops : List Op) :
    ∀ (c : CardState) (cur : Option String),
      c.currentJourney
        = cur.map (fun nm => { «from» := nm, type := TransportType.tube }) →
      (runTrace c ops).currentJourney
        = (specOpenOrigin c cur ops).map
            (fun nm => { «from» := nm, type := TransportType.tube }) := by
  induction ops with
  | nil => intro c cur h; exact h
  | cons op ops ih =>
    intro c cur h
    rw [runTrace, specOpenOrigin]
    apply ih
    cases op with
    | load a =>
      simpa [afterOp, runOp, specUpdate, load] using h
    | tapIn nm t =>
      cases t with
      | bus =>
        cases hro : tapIn c nm TransportType.bus with
        | ok c1 =>
          have ha : afterOp c (Op.tapIn nm TransportType.bus) = c1 := by
            simp [afterOp, runOp, hro]
          rw [ha, tapIn_bus_journey hro]
          simpa [runOp, hro, specUpdate] using h
        | err e c1 =>
          have ha : afterOp c (Op.tapIn nm TransportType.bus) = c1 := by
            simp [afterOp, runOp, hro]
          rw [ha, tapIn_err_state hro]
          simpa [runOp, hro, specUpdate] using h
      | tube =>
        cases hro : tapIn c nm TransportType.tube with
        | ok c1 =>
          obtain ⟨_, _, hc1⟩ := tapIn_tube_ok hro
          have ha : afterOp c (Op.tapIn nm TransportType.tube) = c1 := by
            simp [afterOp, runOp, hro]
          rw [ha, hc1]
          simp [runOp, hro, specUpdate]
        | err e c1 =>
          have ha : afterOp c (Op.tapIn nm TransportType.tube) = c1 := by
            simp [afterOp, runOp, hro]
          rw [ha, tapIn_err_state hro]
          simpa [runOp, hro, specUpdate] using h
    | tapOut nm =>
      cases hro : tapOut c nm with
      | ok c1 =>
        obtain ⟨j, dep, arr, _, _, _, _, hc1⟩ := tapOut_ok hro
        have ha : afterOp c (Op.tapOut nm) = c1 := by
          simp [afterOp, runOp, hro]
        rw [ha, hc1]
        simp [runOp, hro, specUpdate]
      | err e c1 =>
        have ha : afterOp c (Op.tapOut nm) = c1 := by
          simp [afterOp, runOp, hro]
        rw [ha, tapOut_err_state hro]
        simpa [runOp, hro, specUpdate] using h

/-! ### Claim theorems -/

/-- Claim C1 (code defect, evaluated at the failing input): a second tube
tap-in while a journey is already open is NOT rejected by the code — it
debits `fares.max` a second time and silently overwrites the open journey's
origin, where the specification requires `JourneyAlreadyOpenError` with
balance and journey unchanged. With balance 26.80 and an open journey from
Holburn, a tube tap-in at Chelsea returns success with balance 23.60 and the
origin replaced by Chelsea. -/
theorem double_tube_tapIn_not_rejected :
    tapIn ⟨2680, some { «from» := "Holburn", type := .tube }⟩ "Chelsea" TransportType.tube
      = .ok ⟨2360, some { «from» := "Chelsea", type := .tube }⟩ := by
  decide

/-- Claim C2: for stations with non-empty zone sets, `calculateTubeFare`
returns the minimum over the Cartesian product of the two zone sets of the
tier fare given by span and zone-1 involvement per the five-tier table
(`specTierFare`): it is a lower bound of all pair fares and is attained at
some pair. -/
theorem calculateTubeFare_min_over_pairs (A B : Station)
    (hA : A.zones ≠ []) (hB : B.zones ≠ []) :
    (∀ fz ∈ A.zones, ∀ tz ∈ B.zones, calculateTubeFare A B ≤ specTierFare fz tz) ∧
    ∃ fz ∈ A.zones, ∃ tz ∈ B.zones, calculateTubeFare A B = specTierFare fz tz := by
  constructor
  · intro fz hfz tz htz
    rw [← fareForPair_eq_spec]
    exact calculateTubeFare_le A B fz tz hfz htz
  · obtain ⟨fz, hfz, tz, htz, h⟩ := calculateTubeFare_attained A B hA hB
    exact ⟨fz, hfz, tz, htz, h.trans (fareForPair_eq_spec fz tz)⟩

theorem calculateTubeFare_min_over_pairs_witness :
    (∀ fz ∈ (Station.mk "Earl's Court" [1, 2]).zones,
      ∀ tz ∈ (Station.mk "Wimbledon" [3]).zones,
        calculateTubeFare ⟨"Earl's Court", [1, 2]⟩ ⟨"Wimbledon", [3]⟩ ≤ specTierFare fz tz) ∧
    ∃ fz ∈ (Station.mk "Earl's Court" [1, 2]).zones,
      ∃ tz ∈ (Station.mk "Wimbledon" [3]).zones,
        calculateTubeFare ⟨"Earl's Court", [1, 2]⟩ ⟨"Wimbledon", [3]⟩ = specTierFare fz tz :=
  calculateTubeFare_min_over_pairs ⟨"Earl's Court", [1, 2]⟩ ⟨"Wimbledon", [3]⟩
    (by decide) (by decide)

/-- Claim C3: every resolved tube fare is at most the pre-authorization
`fares.max`, and a successful tube tap-in at `A` followed immediately by a
successful tap-out at `B` changes the balance by exactly
`-calculateTubeFare A B`: the tap-in debits `fares.max` and the tap-out
credits back `fares.max - fare`. -/
theorem fare_bounded_and_roundtrip_delta :
    (∀ A B : Station, A.zones ≠ [] → B.zones ≠ [] → calculateTubeFare A B ≤ fares.max) ∧
    (∀ (c c₁ c₂ : CardState) (A B : String),
      tapIn c A TransportType.tube = .ok c₁ → tapOut c₁ B = .ok c₂ →
      ∃ sA sB, findStation A = some sA ∧ findStation B = some sB ∧
        c₂.balance = c.balance - calculateTubeFare sA sB) := by
  constructor
  · intro A B hA hB
    obtain ⟨fz, _, tz, _, h⟩ := calculateTubeFare_attained A B hA hB
    rw [h]
    exact fareForPair_le_max fz tz
  · intro c c₁ c₂ A B h₁ h₂
    obtain ⟨⟨sA, hsA⟩, hbal, hc₁⟩ := tapIn_tube_ok h₁
    obtain ⟨j, dep, arr, hj, hjt, hdep, harr, hc₂⟩ := tapOut_ok h₂
    subst hc₁
    have hj' : ({ «from» := A, type := TransportType.tube } : Journey) = j := by
      simpa using hj
    subst hj'
    have hdep' : findStation A = some dep := hdep
    have hda : dep = sA := by
      rw [hsA] at hdep'
      exact (Option.some.inj hdep').symm
    subst hda
    subst hc₂
    exact ⟨dep, arr, hsA, harr, by simp⟩

theorem fare_bounded_and_roundtrip_delta_witness :
    calculateTubeFare ⟨"Wimbledon", [3]⟩ ⟨"Holburn", [1]⟩ ≤ fares.max ∧
    ∃ sA sB, findStation "Holburn" = some sA ∧ findStation "Earl's Court" = some sB ∧
      (CardState.mk 2750 none).balance = (mkCard 3000).balance - calculateTubeFare sA sB :=
  ⟨fare_bounded_and_roundtrip_delta.1 ⟨"Wimbledon", [3]⟩ ⟨"Holburn", [1]⟩
      (by decide) (by decide),
   fare_bounded_and_roundtrip_delta.2 (mkCard 3000)
      ⟨2680, some { «from» := "Holburn", type := .tube }⟩ ⟨2750, none⟩
      "Holburn" "Earl's Court" (by decide) (by decide)⟩

/-- Claim C4: when the balance is below the amount the tap would debit
(`fares.max` for tube, `fares.bus` for bus), `tapIn` at a known station fails
with `InsufficientBalanceError` and the state carried by the failure is
exactly the input state: balance, state-machine state and any open journey
are untouched (the debit is all-or-nothing). -/
theorem tapIn_insufficient_balance (c : CardState) (nm : String) (t : TransportType)
    (s : Station) (hs : findStation nm = some s)
    (hb : c.balance < (match t with | .tube => fares.max | .bus => fares.bus)) :
    tapIn c nm t = .err .insufficientBalance c := by
  cases t <;> simp [tapIn, deductFare, hs, hb]

theorem tapIn_insufficient_balance_witness :
    (mkCard 200).balance
        < (match TransportType.tube with | .tube => fares.max | .bus => fares.bus) ∧
    tapIn (mkCard 200) "Holburn" TransportType.tube = .err .insufficientBalance (mkCard 200) :=
  ⟨by decide,
   tapIn_insufficient_balance (mkCard 200) "Holburn" TransportType.tube
     { name := "Holburn", zones := [1] } (by decide) (by decide)⟩

/-- Claim C5: with no open journey, `tapOut` fails with `InvalidTapOutError`
and the carried state is exactly the input state; conversely a successful
`tapOut` requires an open tube journey — which only a successful tube tap-in
creates (see the trace invariant for C6). -/
theorem tapOut_requires_open_journey :
    (∀ (c : CardState) (nm : String), c.currentJourney = none →
      tapOut c nm = .err .invalidTapOut c) ∧
    (∀ (c c' : CardState) (nm : String), tapOut c nm = .ok c' →
      ∃ j, c.currentJourney = some j ∧ j.type = TransportType.tube) := by
  constructor
  · intro c nm hj
    simp [tapOut, hj]
  · intro c c' nm h
    obtain ⟨j, dep, arr, hj, hjt, _, _, _⟩ := tapOut_ok h
    exact ⟨j, hj, hjt⟩

theorem tapOut_requires_open_journey_witness :
    tapOut (mkCard 3000) "Holburn" = .err .invalidTapOut (mkCard 3000) ∧
    ∃ j, (CardState.mk 2680 (some { «from» := "Holburn", type := .tube })).currentJourney
        = some j ∧ j.type = TransportType.tube :=
  ⟨tapOut_requires_open_journey.1 (mkCard 3000) "Holburn" rfl,
   tapOut_requires_open_journey.2 ⟨2680, some { «from» := "Holburn", type := .tube }⟩
     ⟨2750, none⟩ "Earl's Court" (by decide)⟩

/-- Claim C6: from any freshly created card, after any trace of operations
the session's `currentJourney` (a single optional value, so at most one open
journey can ever exist) equals the origin tracked by the specification's
rule: a successful tube tap-in sets it, a successful tap-out clears it, and
load, bus tap-ins and failed operations leave it unchanged — so the session
holds an open journey (with type tube and that origin) exactly when its most
recent successful tube tap-in has not yet been closed by a tap-out. -/
theorem open_journey_invariant (b : Int) (ops : List Op) :
    (runTrace (mkCard b) ops).currentJourney
      = (specOpenOrigin (mkCard b) none ops).map
          (fun nm => { «from» := nm, type := TransportType.tube }) :=
  specOpenOrigin_invariant ops (mkCard b) none rfl

/-- Claim C7: in any state (idle or mid-tube-journey), a bus tap-in at a
known station with sufficient balance debits exactly the flat `fares.bus`,
leaves `currentJourney` untouched (never opens a journey), and can be
repeated along any list of known stations, each repetition debiting
`fares.bus` again. -/
theorem bus_tapIn_flat_fare_no_transition :
    (∀ (c : CardState) (nm : String) (s : Station), findStation nm = some s →
      fares.bus ≤ c.balance →
      tapIn c nm TransportType.bus
        = .ok { balance := c.balance - fares.bus, currentJourney := c.currentJourney }) ∧
    (∀ (names : List String) (c : CardState),
      (∀ nm ∈ names, (findStation nm).isSome = true) →
      (names.length : Int) * fares.bus ≤ c.balance →
      runBusTaps c names
        = .ok { balance := c.balance - names.length * fares.bus,
                currentJourney := c.currentJourney }) := by
  have hf : fares.bus = 180 := rfl
  refine ⟨tapIn_bus_ok, ?_⟩
  intro names
  induction names with
  | nil =>
    intro c _ _
    simp [runBusTaps]
  | cons nm nms ih =>
    intro c hknown hb
    obtain ⟨s, hs⟩ := Option.isSome_iff_exists.mp (hknown nm (List.mem_cons_self nm nms))
    rw [hf] at hb
    simp only [List.length_cons] at hb
    have hb1 : fares.bus ≤ c.balance := by
      rw [hf]
      push_cast at hb
      omega
    calc runBusTaps c (nm :: nms)
        = runBusTaps { balance := c.balance - fares.bus, currentJourney := c.currentJourney }
            nms := by
          rw [runBusTaps, tapIn_bus_ok c nm s hs hb1]
      _ = .ok { balance := (c.balance - fares.bus) - nms.length * fares.bus,
                currentJourney := c.currentJourney } := by
          refine ih _ (fun x hx => hknown x (List.mem_cons_of_mem nm hx)) ?_
          simp only
          rw [hf]
          push_cast at hb ⊢
          omega
      _ = .ok { balance := c.balance - (nm :: nms).length * fares.bus,
                currentJourney := c.currentJourney } := by
          rw [hf]
          congr 2
          simp only [List.length_cons]
          push_cast
          ring

theorem bus_tapIn_flat_fare_no_transition_witness :
    tapIn (mkCard 3000) "Any Station" TransportType.bus
      = .ok { balance := (mkCard 3000).balance - fares.bus,
              currentJourney := (mkCard 3000).currentJourney } ∧
    runBusTaps (mkCard 3000) ["Any Station", "Another Station", "Final Station"]
      = .ok { balance := (mkCard 3000).balance
                - (["Any Station", "Another Station", "Final Station"].length : Int) * fares.bus,
              currentJourney := (mkCard 3000).currentJourney } :=
  ⟨bus_tapIn_flat_fare_no_transition.1 (mkCard 3000) "Any Station"
      { name := "Any Station", zones := [1] } (by decide) (by decide),
   bus_tapIn_flat_fare_no_transition.2 ["Any Station", "Another Station", "Final Station"]
      (mkCard 3000) (by decide) (by decide)⟩

/-- Claim C8, counterexample: the claim says `tapOut` at an unknown station
fails with `UnknownStationError`, but with no open journey the journey check
fires first — `tapOut` of a fresh card at the unknown name "Nowhere" fails
with `InvalidTapOutError` instead. -/
theorem tapOut_unknown_station_counterexample :
    findStation "Nowhere" = none ∧
    tapOut (mkCard 3000) "Nowhere" = .err .invalidTapOut (mkCard 3000) := by
  decide

/-- Claim C8 (amended): an unknown station name makes `tapIn` (either
transport type) fail with `UnknownStationError` before any debit, carrying
the input state unchanged; `tapOut` at an unknown station fails with
`UnknownStationError` — again before any credit, state unchanged — provided
the session is in an open tube journey (otherwise the journey precondition
fails first with `InvalidTapOutError`). -/
theorem unknown_station_rejected :
    (∀ (c : CardState) (nm : String) (t : TransportType), findStation nm = none →
      tapIn c nm t = .err (.unknownStation nm) c) ∧
    (∀ (c : CardState) (nm : String) (j : Journey), c.currentJourney = some j →
      j.type = TransportType.tube → findStation nm = none →
      tapOut c nm = .err (.unknownStation nm) c) := by
  constructor
  · intro c nm t h
    simp [tapIn, h]
  · intro c nm j hj hjt h
    simp [tapOut, hj, hjt, h]

theorem unknown_station_rejected_witness :
    tapIn (mkCard 3000) "Nowhere" TransportType.tube
      = .err (.unknownStation "Nowhere") (mkCard 3000) ∧
    tapOut ⟨2680, some { «from» := "Holburn", type := .tube }⟩ "Nowhere"
      = .err (.unknownStation "Nowhere") ⟨2680, some { «from» := "Holburn", type := .tube }⟩ :=
  ⟨unknown_station_rejected.1 (mkCard 3000) "Nowhere" .tube (by decide),
   unknown_station_rejected.2 ⟨2680, some { «from» := "Holburn", type := .tube }⟩ "Nowhere"
     { «from» := "Holburn", type := .tube } rfl rfl (by decide)⟩

/-- Claim C9: the fare resolver is commutative — the span, the zone-1 test
and the minimum over the Cartesian product are all symmetric in the two
stations. -/
theorem calculateTubeFare_comm (A B : Station) (hA : A.zones ≠ []) (hB : B.zones ≠ []) :
    calculateTubeFare A B = calculateTubeFare B A := by
  apply le_antisymm
  · obtain ⟨fz, hfz, tz, htz, h⟩ := calculateTubeFare_attained B A hB hA
    rw [h, fareForPair_comm]
    exact calculateTubeFare_le A B tz fz htz hfz
  · obtain ⟨fz, hfz, tz, htz, h⟩ := calculateTubeFare_attained A B hA hB
    rw [h, fareForPair_comm]
    exact calculateTubeFare_le B A tz fz htz hfz

theorem calculateTubeFare_comm_witness :
    calculateTubeFare ⟨"Earl's Court", [1, 2]⟩ ⟨"Wimbledon", [3]⟩
      = calculateTubeFare ⟨"Wimbledon", [3]⟩ ⟨"Earl's Court", [1, 2]⟩ :=
  calculateTubeFare_comm ⟨"Earl's Court", [1, 2]⟩ ⟨"Wimbledon", [3]⟩ (by decide) (by decide)

/-- Claim C10: `load` performs no validation: any amount — zero and negative
included — is added to the balance, the journey state is untouched, and a
negative amount is accepted and can drive the balance below zero. -/
theorem load_unvalidated :
    (∀ (c : CardState) (amount : Int),
      load c amount = { balance := c.balance + amount, currentJourney := c.currentJourney }) ∧
    (load (mkCard 100) (-500)).balance < 0 :=
  ⟨fun _ _ => rfl, by decide⟩
